import Mathlib

/-!
Shallow embedding of the Modbus RTU slave kernel
(`src/SlaveRtuKernelClass.cpp`, `src/SlaveRtuKernelClass.h`,
`src/MyTimeout.h`) for the ESP32 target.

Machine integers are modelled as `Nat` (unsigned) and `Int` with explicit
wrapping where the C code wraps; `mytimer_t` (int16_t on ESP32) is an `Int`
kept in the signed 16-bit range by `toInt16`.

The upstream `ModbusSlave` frame engine is out of scope per the spec;
its scratch buffers appear as explicit lists (incoming register values,
outgoing `(index, value)` writes), its status constants are the Modbus
standard codes, and its per-poll frame delivery is a `FrameAction`
parameter of `poll`.
-/

-- ---------------------------------------------------------------------
-- Status codes of the ModbusSlave library (not under src/).
-- Modelled from the spec: "ModbusException: one of {OK, IllegalFunction,
-- IllegalDataAddress, SlaveDeviceFailure}; numeric values follow the
-- Modbus standard" (0x01, 0x02, 0x04; OK = 0).
-- ---------------------------------------------------------------------

def STATUS_OK : Nat := 0

def STATUS_ILLEGAL_FUNCTION : Nat := 1

def STATUS_ILLEGAL_DATA_ADDRESS : Nat := 2

def STATUS_SLAVE_DEVICE_FAILURE : Nat := 4

-- ---------------------------------------------------------------------
-- Configuration register window constants
-- (enum in SlaveRtuKernelClass.h, lines 88-96)
-- ---------------------------------------------------------------------

def holdingRegSlaveId : Nat := 0

def holdingRegBaudRate : Nat := 1

def holdingRegCommTimeout : Nat := 2

def holdingRegRebootRequest : Nat := 3

def numConfigRegs : Nat := 4

def configAddressOffset : Nat := 0x100

/-- `eepromMagic` constant (SlaveRtuKernelClass.h line 104). -/
def eepromMagic : Nat := 0x12345678

/-- `sizeof(KernelEeprom)` on ESP32: 2+2+2 bytes of u16 fields, 2 bytes
padding, 4 bytes `unsigned long magic`. -/
def kernelEepromSize : Nat := 12

-- ---------------------------------------------------------------------
-- Timer primitive (MyTimeout.h, ESP32 branch: mytimer_t = int16_t,
-- MY_TIMER_MASK = 0xFFFF)
-- ---------------------------------------------------------------------

/-- Wrap an integer into the signed 16-bit range `[-0x8000, 0x7FFF]`,
the effect of a C cast to `int16_t` (GCC semantics). -/
def toInt16 (z : Int) : Int := (z + 0x8000) % 0x10000 - 0x8000

/-- `millis() & MY_TIMER_MASK` cast to `mytimer_t`. -/
def millis16 (now : Nat) : Int := toInt16 ((now : Int) % 0x10000)

/-- `setTimeout(x, t)`: `x = mytimer_t(mytimer_t(millis() & MY_TIMER_MASK) + t)`. -/
def setTimeout (now t : Nat) : Int := toInt16 (millis16 now + t)

/-- `checkTimeout(x)`: `(mytimer_t(mytimer_t(millis() & MY_TIMER_MASK) - x) >= 0 ? true : false)`. -/
def checkTimeout (now : Nat) (x : Int) : Bool :=
  if 0 ≤ toInt16 (millis16 now - x) then true else false

/-- `resetTimeout(x)`: `x = mytimer_t(millis() & MY_TIMER_MASK)`. -/
def resetTimeout (now : Nat) : Int := millis16 now

-- ---------------------------------------------------------------------
-- Data model
-- ---------------------------------------------------------------------

/-- `struct KernelEeprom` (SlaveRtuKernelClass.h lines 110-115).
All fields are machine words modelled as `Nat`; `magic` is the 32-bit
`unsigned long`. -/
structure KernelEeprom where
  slaveID : Nat
  baudRate : Nat
  commTimeout : Nat
  magic : Nat
deriving Repr, DecidableEq

/-- The persisted non-volatile storage: the kernel header followed by the
application-owned bytes (persisted and reloaded verbatim). -/
structure Eeprom where
  header : KernelEeprom
  appData : List Nat
deriving Repr, DecidableEq

/-- The `_cbVectorUsed` flags for the six callback slots. -/
structure CbVector where
  readCoils : Bool
  writeCoils : Bool
  readDiscreteInputs : Bool
  readHoldingRegisters : Bool
  writeHoldingRegisters : Bool
  readInputRegisters : Bool
deriving Repr, DecidableEq

def CbVector.allFalse : CbVector :=
  ⟨false, false, false, false, false, false⟩

/-- Callback-vector index argument of `enableCallback` (the library's
`CB_*` enum values; `readExceptionStatus` is `CB_READ_EXCEPTION_STATUS`,
explicitly unsupported by the kernel; `invalid` is any other index,
hitting the `default:` branch). -/
inductive CbIdx where
  | readCoils
  | writeCoils
  | readDiscreteInputs
  | readHoldingRegisters
  | writeHoldingRegisters
  | readInputRegisters
  | readExceptionStatus
  | invalid
deriving Repr, DecidableEq

/-- Volatile kernel state: the fields of `SlaveRtuKernelClass` that the
claims observe. -/
structure KernelState where
  config : KernelEeprom
  configRegs : List Nat
  rebootRequest : Bool
  communicationLost : Bool
  communicationLostTimer : Int
  cbVectorUsed : CbVector
deriving Repr, DecidableEq

/-- Observable events: the virtual notification callbacks and the
platform reset hook (`ESP.restart()`). -/
inductive Event where
  | lost
  | reestablished
  | reset
deriving Repr, DecidableEq

/-- The application's override of the four accessor callbacks
(`cbAccessHoldingRegisters` etc.). Only the returned status is
kernel-visible; arguments are (write?, address, length). -/
structure AppCallbacks where
  accessHoldingRegisters : Bool → Nat → Nat → Nat
  accessCoils : Bool → Nat → Nat → Nat
  accessDiscreteInputs : Bool → Nat → Nat → Nat
  accessInputRegisters : Bool → Nat → Nat → Nat

/-- The base-class default implementations (SlaveRtuKernelClass.cpp
lines 49-66): every accessor returns `STATUS_ILLEGAL_FUNCTION`. -/
def defaultCallbacks : AppCallbacks :=
  { accessHoldingRegisters := fun _ _ _ => STATUS_ILLEGAL_FUNCTION
    accessCoils := fun _ _ _ => STATUS_ILLEGAL_FUNCTION
    accessDiscreteInputs := fun _ _ _ => STATUS_ILLEGAL_FUNCTION
    accessInputRegisters := fun _ _ _ => STATUS_ILLEGAL_FUNCTION }

-- ---------------------------------------------------------------------
-- enableCallback (SlaveRtuKernelClass.cpp lines 95-129)
-- ---------------------------------------------------------------------

/-- `enableCallback(int cbVectorIdx)`: the holding-register slots are
already wired (only the used flag is set); coil / discrete-input /
input-register slots install a trampoline and set the used flag;
`CB_READ_EXCEPTION_STATUS` and invalid indices return untouched. -/
def enableCallback (s : KernelState) (idx : CbIdx) : KernelState :=
  match idx with
  | .readHoldingRegisters =>
      { s with cbVectorUsed := { s.cbVectorUsed with readHoldingRegisters := true } }
  | .writeHoldingRegisters =>
      { s with cbVectorUsed := { s.cbVectorUsed with writeHoldingRegisters := true } }
  | .readCoils =>
      { s with cbVectorUsed := { s.cbVectorUsed with readCoils := true } }
  | .writeCoils =>
      { s with cbVectorUsed := { s.cbVectorUsed with writeCoils := true } }
  | .readDiscreteInputs =>
      { s with cbVectorUsed := { s.cbVectorUsed with readDiscreteInputs := true } }
  | .readInputRegisters =>
      { s with cbVectorUsed := { s.cbVectorUsed with readInputRegisters := true } }
  | .readExceptionStatus => s
  | .invalid => s

-- ---------------------------------------------------------------------
-- Constructor (SlaveRtuKernelClass.cpp lines 137-224)
-- ---------------------------------------------------------------------

/-- Construction at time `now`: load the persisted header, zero `magic`
when it differs from the sentinel, copy the header into the mirror
(`_configRegs`), clear the reboot-request mirror register, clear the
alarm flag, and arm the watchdog timer when the stored timeout is
non-zero (the timer variable is otherwise left at an arbitrary value,
here 0; the watchdog guard never reads it then).  `_cbVectorUsed` is
cleared; the constructor installs the holding-register trampolines but
does not set their used flags. -/
def construct (e : Eeprom) (now : Nat) : KernelState :=
  let cfg := e.header
  let cfg := if cfg.magic ≠ eepromMagic then { cfg with magic := 0 } else cfg
  { config := cfg
    configRegs := [cfg.slaveID, cfg.baudRate, cfg.commTimeout, 0]
    rebootRequest := false
    communicationLost := false
    communicationLostTimer :=
      if cfg.commTimeout ≠ 0 then setTimeout now cfg.commTimeout else 0
    cbVectorUsed := CbVector.allFalse }

-- ---------------------------------------------------------------------
-- EEPROM configuration (SlaveRtuKernelClass.cpp lines 263-316)
-- ---------------------------------------------------------------------

/-- `eepromDefaultsRequired()`: `_config.magic == 0 ? true : false`. -/
def eepromDefaultsRequired (s : KernelState) : Bool :=
  if s.config.magic = 0 then true else false

/-- `eepromWriteDefaults(buffer, length)`: rejected (nothing persisted)
when the buffer is smaller than the kernel header; otherwise the kernel
defaults are stamped into `_config` and into the caller's buffer header,
and the combined buffer is persisted (`_eepromWrite(buffer, length)`),
replacing the store. -/
def eepromWriteDefaults (s : KernelState) (store : Eeprom) (buf : Eeprom)
    (length : Nat) : KernelState × Eeprom :=
  if length < kernelEepromSize then (s, store)
  else
    let cfg : KernelEeprom :=
      { magic := eepromMagic, slaveID := 1, baudRate := 9600, commTimeout := 0 }
    ({ s with config := cfg }, { header := cfg, appData := buf.appData })

/-- 16-bit unsigned subtraction `a - b` as performed on `uint16_t`
operands (`address -= configAddressOffset`). -/
def u16sub (a b : Nat) : Nat := (a + 0x10000 - b % 0x10000) % 0x10000

-- ---------------------------------------------------------------------
-- Configuration register window (SlaveRtuKernelClass.cpp lines 324-399)
-- ---------------------------------------------------------------------

/-- Result of a read-path handler: status, successor state, notification
events fired, and the `(index, value)` register writes produced with
`writeRegisterToBuffer`. -/
structure ReadResult where
  status : Nat
  state : KernelState
  events : List Event
  bufOut : List (Nat × Nat)
deriving Repr, DecidableEq

/-- Result of a write-path handler: status, successor state, persisted
storage. -/
structure WriteResult where
  status : Nat
  state : KernelState
  eeprom : Eeprom
deriving Repr, DecidableEq

/-- The `for` loop of `_readConfigRegs`, iterating `count` further
indices starting at request-relative index `i` (`address` is already
zero-based within the window).  Each iteration emits the mirror value
to the outgoing buffer; touching `holdingRegCommTimeout` retriggers the
watchdog timer from the current mirror timeout, fires
`cbCommunicationReestablished` when an alarm is pending, and clears the
alarm flag. -/
def readConfigLoop (now a : Nat) (s : KernelState) :
    (i count : Nat) → KernelState × List Event × List (Nat × Nat)
  | _, 0 => (s, [], [])
  | i, Nat.succ c =>
    let v := s.configRegs.getD (a + i) 0
    let s1 :=
      if a + i = holdingRegCommTimeout then
        { s with
          communicationLostTimer :=
            setTimeout now (s.configRegs.getD holdingRegCommTimeout 0)
          communicationLost := false }
      else s
    let evs1 : List Event :=
      if a + i = holdingRegCommTimeout ∧ s.communicationLost = true then
        [Event.reestablished]
      else []
    let r := readConfigLoop now a s1 (i + 1) c
    (r.1, evs1 ++ r.2.1, (i, v) :: r.2.2)

/-- `_readConfigRegs(fc, address, length)`. -/
def readConfigRegs (now : Nat) (s : KernelState) (address length : Nat) :
    ReadResult :=
  let address := u16sub address configAddressOffset
  if address + length > numConfigRegs then
    { status := STATUS_ILLEGAL_DATA_ADDRESS, state := s, events := [], bufOut := [] }
  else
    let r := readConfigLoop now address s 0 length
    { status := STATUS_OK, state := r.1, events := r.2.1, bufOut := r.2.2 }

/-- The `for` loop of `_writeConfigRegs`: each iteration reads the
incoming value (`readRegisterFromBuffer(i)`, a `uint16_t`), stores it
into the mirror, applies the per-register side effect (the header field
update, or — for the reboot register — the deferred flag on `0xFFFF`
and forcing the stored value to 0), and stores the possibly updated
value back into the mirror. -/
def writeConfigLoop (a : Nat) (bufIn : List Nat) :
    KernelState → (i count : Nat) → KernelState
  | s, _, 0 => s
  | s, i, Nat.succ c =>
    let val := bufIn.getD i 0 % 0x10000
    let s0 := { s with configRegs := s.configRegs.set (a + i) val }
    let p : KernelState × Nat :=
      if a + i = holdingRegSlaveId then
        ({ s0 with config := { s0.config with slaveID := val } }, val)
      else if a + i = holdingRegBaudRate then
        ({ s0 with config := { s0.config with baudRate := val } }, val)
      else if a + i = holdingRegCommTimeout then
        ({ s0 with config := { s0.config with commTimeout := val } }, val)
      else if a + i = holdingRegRebootRequest then
        ({ s0 with rebootRequest := if val = 0xFFFF then true else s0.rebootRequest }, 0)
      else (s0, val)
    let s2 := { p.1 with configRegs := p.1.configRegs.set (a + i) p.2 }
    writeConfigLoop a bufIn s2 (i + 1) c

/-- `_writeConfigRegs(fc, address, length)`: range check, the write
loop, then `_eepromWrite((uint8_t *)&_config, sizeof(_config))` — the
kernel header is persisted, the application bytes are untouched. -/
def writeConfigRegs (s : KernelState) (e : Eeprom) (address length : Nat)
    (bufIn : List Nat) : WriteResult :=
  let address := u16sub address configAddressOffset
  if address + length > numConfigRegs then
    { status := STATUS_ILLEGAL_DATA_ADDRESS, state := s, eeprom := e }
  else
    let s1 := writeConfigLoop address bufIn s 0 length
    { status := STATUS_OK, state := s1, eeprom := { e with header := s1.config } }

-- ---------------------------------------------------------------------
-- Dispatch layer (SlaveRtuKernelClass.cpp lines 407-470)
-- ---------------------------------------------------------------------

/-- `_readHoldingRegs(fc, address, length)`. -/
def readHoldingRegs (app : AppCallbacks) (now : Nat) (s : KernelState)
    (address length : Nat) : ReadResult :=
  if address ≥ configAddressOffset then
    readConfigRegs now s address length
  else if s.cbVectorUsed.readHoldingRegisters then
    { status := app.accessHoldingRegisters false address length
      state := s, events := [], bufOut := [] }
  else
    { status := STATUS_ILLEGAL_DATA_ADDRESS, state := s, events := [], bufOut := [] }

/-- `_writeHoldingRegs(fc, address, length)`. -/
def writeHoldingRegs (app : AppCallbacks) (s : KernelState) (e : Eeprom)
    (address length : Nat) (bufIn : List Nat) : WriteResult :=
  if address ≥ configAddressOffset then
    writeConfigRegs s e address length bufIn
  else if s.cbVectorUsed.writeHoldingRegisters then
    { status := app.accessHoldingRegisters true address length, state := s, eeprom := e }
  else
    { status := STATUS_ILLEGAL_DATA_ADDRESS, state := s, eeprom := e }

/-- `_readCoils(fc, address, length)`. -/
def readCoils (app : AppCallbacks) (s : KernelState) (address length : Nat) : Nat :=
  if s.cbVectorUsed.readCoils then app.accessCoils false address length
  else STATUS_ILLEGAL_FUNCTION

/-- `_writeCoils(fc, address, length)`. -/
def writeCoils (app : AppCallbacks) (s : KernelState) (address length : Nat) : Nat :=
  if s.cbVectorUsed.writeCoils then app.accessCoils true address length
  else STATUS_ILLEGAL_FUNCTION

/-- `_readDiscreteInputs(fc, address, length)`. -/
def readDiscreteInputs (app : AppCallbacks) (s : KernelState) (address length : Nat) : Nat :=
  if s.cbVectorUsed.readDiscreteInputs then app.accessDiscreteInputs false address length
  else STATUS_ILLEGAL_FUNCTION

/-- `_readInputRegs(fc, address, length)`. -/
def readInputRegs (app : AppCallbacks) (s : KernelState) (address length : Nat) : Nat :=
  if s.cbVectorUsed.readInputRegisters then app.accessInputRegisters false address length
  else STATUS_ILLEGAL_FUNCTION

-- ---------------------------------------------------------------------
-- poll (SlaveRtuKernelClass.cpp lines 230-256)
-- ---------------------------------------------------------------------

/-- The single frame (if any) that `rtuKernel->poll()` delivers to the
kernel's holding-register handlers during this poll. -/
inductive FrameAction where
  | idle
  | readHolding (address length : Nat)
  | writeHolding (address length : Nat) (bufIn : List Nat)
deriving Repr, DecidableEq

/-- Outcome of the frame-engine phase of `poll`. -/
structure FrameResult where
  state : KernelState
  eeprom : Eeprom
  events : List Event
  status : Option Nat
  bufOut : List (Nat × Nat)
deriving Repr, DecidableEq

/-- Outcome of one `poll()` call.  `state = none` means the platform
reset hook fired and the device rebooted (no further execution). -/
structure PollResult where
  state : Option KernelState
  eeprom : Eeprom
  events : List Event
  status : Option Nat
  bufOut : List (Nat × Nat)
deriving Repr, DecidableEq

/-- `rtuKernel->poll()`: drain the pending frame (if any) through the
registered handler. -/
def framePhase (app : AppCallbacks) (now : Nat) (fa : FrameAction)
    (s : KernelState) (e : Eeprom) : FrameResult :=
  match fa with
  | .idle => { state := s, eeprom := e, events := [], status := none, bufOut := [] }
  | .readHolding a l =>
    let r := readHoldingRegs app now s a l
    { state := r.state, eeprom := e, events := r.events
      status := some r.status, bufOut := r.bufOut }
  | .writeHolding a l b =>
    let w := writeHoldingRegs app s e a l b
    { state := w.state, eeprom := w.eeprom, events := []
      status := some w.status, bufOut := [] }

/-- `poll()`: frame-engine processing, then the deferred-reboot check
(`ESP.restart()`, which does not return), then the communication
watchdog (`_configRegs[holdingRegCommTimeout] && !_communicationLost &&
checkTimeout(...)` fires `cbCommunicationLost` once and latches the
alarm flag). -/
def poll (app : AppCallbacks) (now : Nat) (fa : FrameAction)
    (s : KernelState) (e : Eeprom) : PollResult :=
  let f := framePhase app now fa s e
  if f.state.rebootRequest then
    { state := none, eeprom := f.eeprom, events := f.events ++ [Event.reset]
      status := f.status, bufOut := f.bufOut }
  else if (f.state.configRegs.getD holdingRegCommTimeout 0 != 0)
          && !f.state.communicationLost
          && checkTimeout now f.state.communicationLostTimer then
    { state := some { f.state with communicationLost := true }
      eeprom := f.eeprom, events := f.events ++ [Event.lost]
      status := f.status, bufOut := f.bufOut }
  else
    { state := some f.state, eeprom := f.eeprom, events := f.events
      status := f.status, bufOut := f.bufOut }

-- ---------------------------------------------------------------------
-- Iterated runs used by the temporal claims
-- ---------------------------------------------------------------------

/-- A sequence of idle polls (no frames) at the given times; stops when
the device reboots. -/
def runIdle (ns : List Nat) (s : KernelState) (e : Eeprom) :
    Option KernelState × List Event :=
  match ns with
  | [] => (some s, [])
  | n :: rest =>
    let r := poll defaultCallbacks n FrameAction.idle s e
    match r.state with
    | none => (none, r.events)
    | some s1 =>
      let q := runIdle rest s1 r.eeprom
      (q.1, r.events ++ q.2)

/-- A holding-register write request (address, quantity, incoming
register values). -/
structure WReq where
  address : Nat
  length : Nat
  bufIn : List Nat
deriving Repr, DecidableEq

/-- Apply a sequence of holding-register write requests. -/
def applyWrites (app : AppCallbacks) : List WReq → KernelState × Eeprom →
    KernelState × Eeprom
  | [], p => p
  | w :: ws, p =>
    let r := writeHoldingRegs app p.1 p.2 w.address w.length w.bufIn
    applyWrites app ws (r.state, r.eeprom)

-- ---------------------------------------------------------------------
-- Definitions following the spec's words, for the refinement-style
-- claims (C5 ordering, C9 timer arithmetic)
-- ---------------------------------------------------------------------

/-- Modelled from the spec (claim C5 wording): "frame processing happens
before watchdog evaluation, which happens before deferred-reboot action
sampling". -/
def pollClaimedOrder (app : AppCallbacks) (now : Nat) (fa : FrameAction)
    (s : KernelState) (e : Eeprom) : PollResult :=
  let f := framePhase app now fa s e
  let wd : KernelState × List Event :=
    if (f.state.configRegs.getD holdingRegCommTimeout 0 != 0)
        && !f.state.communicationLost
        && checkTimeout now f.state.communicationLostTimer then
      ({ f.state with communicationLost := true }, [Event.lost])
    else (f.state, [])
  if wd.1.rebootRequest then
    { state := none, eeprom := f.eeprom, events := f.events ++ wd.2 ++ [Event.reset]
      status := f.status, bufOut := f.bufOut }
  else
    { state := some wd.1, eeprom := f.eeprom, events := f.events ++ wd.2
      status := f.status, bufOut := f.bufOut }

/-- Modelled from the spec (claim C9 wording): "set(d, t): store
(now & 0x7FFF) + t as the deadline". -/
def setTimeoutClaimed (now t : Nat) : Int := (now : Int) % 0x8000 + t

/-- Modelled from the spec (claim C9 wording): "check(d): return true iff
the signed difference ((now & 0x7FFF) − d) ≥ 0". -/
def checkTimeoutClaimed (now : Nat) (d : Int) : Bool :=
  if 0 ≤ (now : Int) % 0x8000 - d then true else false

-- ---------------------------------------------------------------------
-- Concrete fixtures used by witnesses and counterexamples
-- ---------------------------------------------------------------------

/-- A valid persisted store: sentinel magic, slave 5, 9600 baud, 100 ms
watchdog, two application bytes. -/
def eepromEx : Eeprom :=
  { header := { slaveID := 5, baudRate := 9600, commTimeout := 100, magic := eepromMagic }
    appData := [7, 8] }

/-- Kernel constructed from `eepromEx` at time 0. -/
def sEx : KernelState := construct eepromEx 0

/-- An application whose accessors all return `STATUS_OK`. -/
def appOk : AppCallbacks :=
  { accessHoldingRegisters := fun _ _ _ => STATUS_OK
    accessCoils := fun _ _ _ => STATUS_OK
    accessDiscreteInputs := fun _ _ _ => STATUS_OK
    accessInputRegisters := fun _ _ _ => STATUS_OK }

/-- `sEx` with both holding-register callback slots enabled. -/
def sExHold : KernelState :=
  enableCallback (enableCallback sEx CbIdx.readHoldingRegisters)
    CbIdx.writeHoldingRegisters

/-- The example kernel right after a reboot request was accepted
(watchdog 100 ms armed at time 0, alarm not yet raised). -/
def sRebootPending : KernelState :=
  (writeHoldingRegs defaultCallbacks sEx eepromEx 0x103 1 [0xFFFF]).state

example : sEx.configRegs = [5, 9600, 100, 0] := by decide

example : (readHoldingRegs defaultCallbacks 0 sEx 0x101 2).bufOut
    = [(0, 9600), (1, 100)] := by decide

example : (readHoldingRegs defaultCallbacks 0 sEx 0x103 2).status
    = STATUS_ILLEGAL_DATA_ADDRESS := by decide

example : (writeHoldingRegs defaultCallbacks sEx eepromEx 0x103 1 [0xFFFF]).state.rebootRequest
    = true := by decide

example : checkTimeout 150 (setTimeout 0 100) = true := by decide

example : checkTimeout 50 (setTimeout 0 100) = false := by decide

-- ---------------------------------------------------------------------
-- Helper lemmas
-- ---------------------------------------------------------------------

lemma u16sub_offset (A : Nat) (h1 : 0x100 ≤ A) (h2 : A < 0x10000) :
    u16sub A configAddressOffset = A - 0x100 := by
  unfold u16sub configAddressOffset
  omega

/-- The read loop never touches the register mirror. -/
lemma readConfigLoop_configRegs (now a : Nat) :
    ∀ (c i : Nat) (s : KernelState),
      (readConfigLoop now a s i c).1.configRegs = s.configRegs := by
  intro c
  induction c with
  | zero => intro i s; simp [readConfigLoop]
  | succ c ih =>
    intro i s
    simp only [readConfigLoop]
    split_ifs <;> simpa using ih (i + 1) _

/-- The buffer writes produced by the read loop are exactly the mirror
values at the requested indices, in request order. -/
lemma readConfigLoop_bufOut (now a : Nat) :
    ∀ (c i : Nat) (s : KernelState),
      (readConfigLoop now a s i c).2.2
        = (List.range' i c).map (fun k => (k, s.configRegs.getD (a + k) 0)) := by
  intro c
  induction c with
  | zero => intro i s; simp [readConfigLoop]
  | succ c ih =>
    intro i s
    simp only [readConfigLoop, List.range'_succ, List.map_cons]
    split_ifs <;> simp [ih (i + 1)]

-- ---------------------------------------------------------------------
-- C1
-- ---------------------------------------------------------------------

/-- C1: a holding-register read with first address `A ≥ 0x100` and
quantity `Q` is served from the 4-register configuration mirror with
status OK exactly when `A + Q ≤ 0x100 + 4`; otherwise the status is
IllegalDataAddress and no register value is written to the outgoing
buffer. -/
theorem c1_configWindowRead (app : AppCallbacks) (now : Nat) (s : KernelState)
    (A Q : Nat) (hA : 0x100 ≤ A) (hA2 : A < 0x10000) :
    (A + Q ≤ 0x100 + 4 →
      (readHoldingRegs app now s A Q).status = STATUS_OK
      ∧ (readHoldingRegs app now s A Q).bufOut
        = (List.range' 0 Q).map
            (fun k => (k, s.configRegs.getD (A - 0x100 + k) 0)))
    ∧ (0x100 + 4 < A + Q →
      (readHoldingRegs app now s A Q).status = STATUS_ILLEGAL_DATA_ADDRESS
      ∧ (readHoldingRegs app now s A Q).bufOut = []) := by
  have hge : A ≥ configAddressOffset := hA
  have hsub := u16sub_offset A hA hA2
  constructor
  · intro hle
    have hguard : ¬ (u16sub A configAddressOffset + Q > numConfigRegs) := by
      rw [hsub]; unfold numConfigRegs; omega
    unfold readHoldingRegs readConfigRegs
    rw [if_pos hge, if_neg hguard]
    refine ⟨rfl, ?_⟩
    simpa [hsub] using readConfigLoop_bufOut now (u16sub A configAddressOffset) Q 0 s
  · intro hgt
    have hguard : u16sub A configAddressOffset + Q > numConfigRegs := by
      rw [hsub]; unfold numConfigRegs; omega
    unfold readHoldingRegs readConfigRegs
    rw [if_pos hge, if_pos hguard]
    exact ⟨rfl, rfl⟩

/-- Witness for C1: a read of two registers at 0x101 on the example
kernel succeeds with the mirror values; a read of two registers at
0x103 overruns the window and is rejected with an empty buffer. -/
theorem c1_configWindowRead_witness :
    ((readHoldingRegs defaultCallbacks 0 sEx 0x101 2).status = STATUS_OK
      ∧ (readHoldingRegs defaultCallbacks 0 sEx 0x101 2).bufOut
        = (List.range' 0 2).map
            (fun k => (k, sEx.configRegs.getD (0x101 - 0x100 + k) 0)))
    ∧ ((readHoldingRegs defaultCallbacks 0 sEx 0x103 2).status
        = STATUS_ILLEGAL_DATA_ADDRESS
      ∧ (readHoldingRegs defaultCallbacks 0 sEx 0x103 2).bufOut = []) :=
  ⟨(c1_configWindowRead defaultCallbacks 0 sEx 0x101 2 (by decide) (by decide)).1
      (by decide),
   (c1_configWindowRead defaultCallbacks 0 sEx 0x103 2 (by decide) (by decide)).2
      (by decide)⟩

-- ---------------------------------------------------------------------
-- C2
-- ---------------------------------------------------------------------

/-- C2 (counterexample): a holding-register read at address 0x0FF with
quantity 2 straddles the window boundary, yet on a kernel whose
application enabled the read-holding callback (returning OK) the slave
answers OK, not IllegalDataAddress — the kernel forwards sub-window
addresses to the application instead of rejecting the mixed range. -/
theorem c2_counterexample :
    (readHoldingRegs appOk 0 sExHold 0x0FF 2).status = STATUS_OK
    ∧ (writeHoldingRegs appOk sExHold eepromEx 0x0FF 2 [1, 2]).status = STATUS_OK
    ∧ STATUS_OK ≠ STATUS_ILLEGAL_DATA_ADDRESS := by decide

/-- C2 (amended): a holding-register request whose range straddles the
window boundary (`A < 0x100 < A + Q`) is never served from the mirror
(no mirror buffer writes, no state/EEPROM mutation): the kernel forwards
it to the application when the corresponding holding-register callback
is enabled — returning the application's status, which may be OK — and
returns IllegalDataAddress only when the callback is not enabled. -/
theorem c2_straddle_forwarded (app : AppCallbacks) (now : Nat)
    (s : KernelState) (e : Eeprom) (A Q : Nat) (bufIn : List Nat)
    (hA : A < 0x100) (hQ : 0x100 < A + Q) :
    (readHoldingRegs app now s A Q).bufOut = []
    ∧ (readHoldingRegs app now s A Q).state = s
    ∧ (readHoldingRegs app now s A Q).events = []
    ∧ (readHoldingRegs app now s A Q).status
      = (if s.cbVectorUsed.readHoldingRegisters
          then app.accessHoldingRegisters false A Q
          else STATUS_ILLEGAL_DATA_ADDRESS)
    ∧ (writeHoldingRegs app s e A Q bufIn).state = s
    ∧ (writeHoldingRegs app s e A Q bufIn).eeprom = e
    ∧ (writeHoldingRegs app s e A Q bufIn).status
      = (if s.cbVectorUsed.writeHoldingRegisters
          then app.accessHoldingRegisters true A Q
          else STATUS_ILLEGAL_DATA_ADDRESS) := by
  have hlt : ¬ (A ≥ configAddressOffset) := by
    unfold configAddressOffset; omega
  unfold readHoldingRegs writeHoldingRegs
  rw [if_neg hlt, if_neg hlt]
  split_ifs <;> simp_all

/-- Witness for C2 (amended): the straddling read/write at 0x0FF,
quantity 2, on the example kernel with no enabled application callbacks
returns IllegalDataAddress and produces no mirror output. -/
theorem c2_straddle_forwarded_witness :
    (readHoldingRegs defaultCallbacks 0 sEx 0x0FF 2).bufOut = []
    ∧ (readHoldingRegs defaultCallbacks 0 sEx 0x0FF 2).state = sEx
    ∧ (readHoldingRegs defaultCallbacks 0 sEx 0x0FF 2).events = []
    ∧ (readHoldingRegs defaultCallbacks 0 sEx 0x0FF 2).status
      = (if sEx.cbVectorUsed.readHoldingRegisters
          then defaultCallbacks.accessHoldingRegisters false 0x0FF 2
          else STATUS_ILLEGAL_DATA_ADDRESS)
    ∧ (writeHoldingRegs defaultCallbacks sEx eepromEx 0x0FF 2 [1, 2]).state = sEx
    ∧ (writeHoldingRegs defaultCallbacks sEx eepromEx 0x0FF 2 [1, 2]).eeprom = eepromEx
    ∧ (writeHoldingRegs defaultCallbacks sEx eepromEx 0x0FF 2 [1, 2]).status
      = (if sEx.cbVectorUsed.writeHoldingRegisters
          then defaultCallbacks.accessHoldingRegisters true 0x0FF 2
          else STATUS_ILLEGAL_DATA_ADDRESS) :=
  c2_straddle_forwarded defaultCallbacks 0 sEx eepromEx 0x0FF 2 [1, 2]
    (by decide) (by decide)

-- ---------------------------------------------------------------------
-- C8
-- ---------------------------------------------------------------------

/-- C8: coil, discrete-input and input-register requests are forwarded
to the application accessor — returning its status — when the slot has
been enabled via `enableCallback`, and are rejected with IllegalFunction
(exception 0x01) when the slot is not enabled. -/
theorem c8_dispatchNonHolding (app : AppCallbacks) (s : KernelState) (a l : Nat)
    (h1 : s.cbVectorUsed.readCoils = false)
    (h2 : s.cbVectorUsed.writeCoils = false)
    (h3 : s.cbVectorUsed.readDiscreteInputs = false)
    (h4 : s.cbVectorUsed.readInputRegisters = false) :
    readCoils app s a l = STATUS_ILLEGAL_FUNCTION
    ∧ writeCoils app s a l = STATUS_ILLEGAL_FUNCTION
    ∧ readDiscreteInputs app s a l = STATUS_ILLEGAL_FUNCTION
    ∧ readInputRegs app s a l = STATUS_ILLEGAL_FUNCTION
    ∧ readCoils app (enableCallback s CbIdx.readCoils) a l
        = app.accessCoils false a l
    ∧ writeCoils app (enableCallback s CbIdx.writeCoils) a l
        = app.accessCoils true a l
    ∧ readDiscreteInputs app (enableCallback s CbIdx.readDiscreteInputs) a l
        = app.accessDiscreteInputs false a l
    ∧ readInputRegs app (enableCallback s CbIdx.readInputRegisters) a l
        = app.accessInputRegisters false a l := by
  simp [readCoils, writeCoils, readDiscreteInputs, readInputRegs, enableCallback,
    h1, h2, h3, h4]

/-- Witness for C8: on the freshly constructed example kernel (no slots
enabled) a coil read of 4 coils at address 0 yields exception 0x01, and
after enabling, the application's status is returned. -/
theorem c8_dispatchNonHolding_witness :
    readCoils appOk sEx 0 4 = STATUS_ILLEGAL_FUNCTION
    ∧ writeCoils appOk sEx 0 4 = STATUS_ILLEGAL_FUNCTION
    ∧ readDiscreteInputs appOk sEx 0 4 = STATUS_ILLEGAL_FUNCTION
    ∧ readInputRegs appOk sEx 0 4 = STATUS_ILLEGAL_FUNCTION
    ∧ readCoils appOk (enableCallback sEx CbIdx.readCoils) 0 4
        = appOk.accessCoils false 0 4
    ∧ writeCoils appOk (enableCallback sEx CbIdx.writeCoils) 0 4
        = appOk.accessCoils true 0 4
    ∧ readDiscreteInputs appOk (enableCallback sEx CbIdx.readDiscreteInputs) 0 4
        = appOk.accessDiscreteInputs false 0 4
    ∧ readInputRegs appOk (enableCallback sEx CbIdx.readInputRegisters) 0 4
        = appOk.accessInputRegisters false 0 4 :=
  c8_dispatchNonHolding appOk sEx 0 4 (by decide) (by decide) (by decide) (by decide)

-- ---------------------------------------------------------------------
-- C6
-- ---------------------------------------------------------------------

/-- C6: with a buffer at least as large as the kernel header,
`eepromWriteDefaults` stamps magic = sentinel, slave_id = 1,
baud_rate = 9600, comm_timeout = 0 into the header regardless of the
caller-provided header values, persists the combined buffer, and:
after construction from a store whose magic differs from the sentinel,
`eepromDefaultsRequired` is true; after `eepromWriteDefaults` and a
reload (reconstruction) it is false. -/
theorem c6_eepromDefaults (e : Eeprom) (now nowR : Nat) (buf : Eeprom)
    (len : Nat) (hmagic : e.header.magic ≠ eepromMagic)
    (hlen : kernelEepromSize ≤ len) :
    eepromDefaultsRequired (construct e now) = true
    ∧ (eepromWriteDefaults (construct e now) e buf len).2.header
        = { slaveID := 1, baudRate := 9600, commTimeout := 0, magic := eepromMagic }
    ∧ (eepromWriteDefaults (construct e now) e buf len).2.appData = buf.appData
    ∧ eepromDefaultsRequired
        (construct (eepromWriteDefaults (construct e now) e buf len).2 nowR)
      = false := by
  have h1 : ¬ (len < kernelEepromSize) := by omega
  have h2 : e.header.magic ≠ (305419896 : Nat) := by
    simpa [eepromMagic] using hmagic
  unfold eepromWriteDefaults construct eepromDefaultsRequired
  rw [if_neg h1]
  simp [h2, eepromMagic]

/-- Witness for C6: a store with magic 0xDEAD, a 16-byte caller buffer. -/
theorem c6_eepromDefaults_witness :
    (let e : Eeprom := { header := { slaveID := 42, baudRate := 19200,
                                     commTimeout := 7, magic := 0xDEAD }
                         appData := [1, 2, 3, 4] }
     let buf : Eeprom := { header := { slaveID := 99, baudRate := 1200,
                                       commTimeout := 3, magic := 5 }
                           appData := [9, 9] }
     eepromDefaultsRequired (construct e 0) = true
     ∧ (eepromWriteDefaults (construct e 0) e buf 16).2.header
         = { slaveID := 1, baudRate := 9600, commTimeout := 0, magic := eepromMagic }
     ∧ (eepromWriteDefaults (construct e 0) e buf 16).2.appData = buf.appData
     ∧ eepromDefaultsRequired
         (construct (eepromWriteDefaults (construct e 0) e buf 16).2 99) = false) :=
  c6_eepromDefaults _ 0 99 _ 16 (by decide) (by decide)

-- ---------------------------------------------------------------------
-- C7
-- ---------------------------------------------------------------------

/-- C7: on a kernel whose persisted storage is valid (magic equals the
sentinel), writing any 16-bit value N to holding register 0x100, then
rebooting (reconstructing from the persisted bytes), then reading
holding register 0x100 yields N. -/
theorem c7_slaveIdRoundtrip (e : Eeprom) (now nowR nowQ : Nat) (N : Nat)
    (hN : N < 0x10000) (hmagic : e.header.magic = eepromMagic) :
    (writeHoldingRegs defaultCallbacks (construct e now) e 0x100 1 [N]).status
      = STATUS_OK
    ∧ (readHoldingRegs defaultCallbacks nowQ
        (construct
          (writeHoldingRegs defaultCallbacks (construct e now) e 0x100 1 [N]).eeprom
          nowR)
        0x100 1).status = STATUS_OK
    ∧ (readHoldingRegs defaultCallbacks nowQ
        (construct
          (writeHoldingRegs defaultCallbacks (construct e now) e 0x100 1 [N]).eeprom
          nowR)
        0x100 1).bufOut = [(0, N)] := by
  obtain ⟨⟨sid, baud, ct, mg⟩, ad⟩ := e
  simp only at hmagic
  subst hmagic
  have hval : N % 0x10000 = N := Nat.mod_eq_of_lt hN
  simp [writeHoldingRegs, writeConfigRegs, writeConfigLoop, readHoldingRegs,
    readConfigRegs, readConfigLoop, construct, u16sub, configAddressOffset,
    numConfigRegs, holdingRegSlaveId, holdingRegBaudRate, holdingRegCommTimeout,
    holdingRegRebootRequest, eepromMagic, STATUS_OK, hval]

/-- Witness for C7: N = 0xBEEF on the valid example store. -/
theorem c7_slaveIdRoundtrip_witness :
    (writeHoldingRegs defaultCallbacks (construct eepromEx 0) eepromEx
        0x100 1 [0xBEEF]).status = STATUS_OK
    ∧ (readHoldingRegs defaultCallbacks 2
        (construct
          (writeHoldingRegs defaultCallbacks (construct eepromEx 0) eepromEx
            0x100 1 [0xBEEF]).eeprom 1)
        0x100 1).status = STATUS_OK
    ∧ (readHoldingRegs defaultCallbacks 2
        (construct
          (writeHoldingRegs defaultCallbacks (construct eepromEx 0) eepromEx
            0x100 1 [0xBEEF]).eeprom 1)
        0x100 1).bufOut = [(0, 0xBEEF)] :=
  c7_slaveIdRoundtrip eepromEx 0 1 2 0xBEEF (by decide) (by decide)

-- ---------------------------------------------------------------------
-- C3
-- ---------------------------------------------------------------------

lemma getD_set_self (l : List Nat) (n a : Nat) (h : a = 0) :
    (l.set n a).getD n 0 = 0 := by
  subst h
  rcases Nat.lt_or_ge n l.length with h | h
  · rw [List.getD_eq_getElem _ _ (by simpa using h)]
    simp [List.getElem_set_self]
  · rw [List.getD_eq_default _ _ (by simpa using h)]

/-- Characterization of an accepted single-register write to the reboot
register 0x103: the mirror slot is first set to the incoming value and
then forced to 0, the deferred flag is set exactly on 0xFFFF, and the
(unchanged) kernel header is persisted. -/
lemma writeConfig_reboot_eq (s : KernelState) (e : Eeprom) (v : Nat)
    (hval : v % 0x10000 = v) :
    writeConfigRegs s e 0x103 1 [v]
      = { status := STATUS_OK
          state := { s with
            configRegs := (s.configRegs.set 3 v).set 3 0
            rebootRequest := if v = 0xFFFF then true else s.rebootRequest }
          eeprom := { e with header := s.config } } := by
  simp only [writeConfigRegs, writeConfigLoop, u16sub, configAddressOffset,
    numConfigRegs, holdingRegSlaveId, holdingRegBaudRate, holdingRegCommTimeout,
    holdingRegRebootRequest, List.getD_cons_zero, hval]
  norm_num

/-- When the frame phase left a pending reboot request, `poll` fires the
reset hook and does not return. -/
lemma poll_reboot (app : AppCallbacks) (now : Nat) (fa : FrameAction)
    (s : KernelState) (e : Eeprom)
    (h : (framePhase app now fa s e).state.rebootRequest = true) :
    poll app now fa s e
      = { state := none
          eeprom := (framePhase app now fa s e).eeprom
          events := (framePhase app now fa s e).events ++ [Event.reset]
          status := (framePhase app now fa s e).status
          bufOut := (framePhase app now fa s e).bufOut } := by
  unfold poll
  simp [h]

/-- An idle poll of a state with no pending reboot never resets and
never fires the reestablished callback. -/
lemma poll_idle_no_reset (now : Nat) (s : KernelState) (e : Eeprom)
    (hrb : s.rebootRequest = false) :
    (poll defaultCallbacks now FrameAction.idle s e).events.count Event.reset = 0
    ∧ (poll defaultCallbacks now FrameAction.idle s e).events.count
        Event.reestablished = 0 := by
  unfold poll framePhase
  simp only [hrb]
  norm_num
  split_ifs <;> simp

/-- C3: an accepted write of holding register 0x103 with value 0xFFFF
sets the deferred-reboot flag, so that the next `poll` fires the
platform reset exactly once (and does not return); a write of any other
value leaves the flag clear and the next `poll` does not reset; in both
cases the mirror register 0x103 reads back 0 after the write. -/
theorem c3_rebootRegister (s : KernelState) (e : Eeprom) (now : Nat) (v : Nat)
    (hv : v < 0x10000) (hrb : s.rebootRequest = false) :
    (writeConfigRegs s e 0x103 1 [v]).status = STATUS_OK
    ∧ (writeConfigRegs s e 0x103 1 [v]).state.configRegs.getD 3 0 = 0
    ∧ (v = 0xFFFF →
        (writeConfigRegs s e 0x103 1 [v]).state.rebootRequest = true
        ∧ (poll defaultCallbacks now FrameAction.idle
            (writeConfigRegs s e 0x103 1 [v]).state
            (writeConfigRegs s e 0x103 1 [v]).eeprom).state = none
        ∧ (poll defaultCallbacks now FrameAction.idle
            (writeConfigRegs s e 0x103 1 [v]).state
            (writeConfigRegs s e 0x103 1 [v]).eeprom).events.count Event.reset
          = 1)
    ∧ (v ≠ 0xFFFF →
        (writeConfigRegs s e 0x103 1 [v]).state.rebootRequest = false
        ∧ (poll defaultCallbacks now FrameAction.idle
            (writeConfigRegs s e 0x103 1 [v]).state
            (writeConfigRegs s e 0x103 1 [v]).eeprom).events.count Event.reset
          = 0) := by
  have hval : v % 0x10000 = v := Nat.mod_eq_of_lt hv
  rw [writeConfig_reboot_eq s e v hval]
  refine ⟨rfl, getD_set_self _ _ _ rfl, ?_, ?_⟩
  · intro hvv
    subst hvv
    refine ⟨by simp, ?_, ?_⟩ <;>
      rw [poll_reboot _ _ _ _ _ (by simp [framePhase])] <;> simp [framePhase]
  · intro hvv
    refine ⟨by simp [hvv, hrb], ?_⟩
    exact (poll_idle_no_reset now _ _ (by simp [hvv, hrb])).1

/-- Witness for C3: value 0xFFFF sets the flag and the next poll resets
once; value 1 does not. -/
theorem c3_rebootRegister_witness :
    ((writeConfigRegs sEx eepromEx 0x103 1 [0xFFFF]).status = STATUS_OK
      ∧ (writeConfigRegs sEx eepromEx 0x103 1 [0xFFFF]).state.configRegs.getD 3 0 = 0
      ∧ (0xFFFF = 0xFFFF →
          (writeConfigRegs sEx eepromEx 0x103 1 [0xFFFF]).state.rebootRequest = true
          ∧ (poll defaultCallbacks 1 FrameAction.idle
              (writeConfigRegs sEx eepromEx 0x103 1 [0xFFFF]).state
              (writeConfigRegs sEx eepromEx 0x103 1 [0xFFFF]).eeprom).state = none
          ∧ (poll defaultCallbacks 1 FrameAction.idle
              (writeConfigRegs sEx eepromEx 0x103 1 [0xFFFF]).state
              (writeConfigRegs sEx eepromEx 0x103 1 [0xFFFF]).eeprom).events.count
              Event.reset = 1)
      ∧ (0xFFFF ≠ 0xFFFF →
          (writeConfigRegs sEx eepromEx 0x103 1 [0xFFFF]).state.rebootRequest = false
          ∧ (poll defaultCallbacks 1 FrameAction.idle
              (writeConfigRegs sEx eepromEx 0x103 1 [0xFFFF]).state
              (writeConfigRegs sEx eepromEx 0x103 1 [0xFFFF]).eeprom).events.count
              Event.reset = 0))
    ∧ ((writeConfigRegs sEx eepromEx 0x103 1 [1]).state.rebootRequest = false) :=
  ⟨c3_rebootRegister sEx eepromEx 1 0xFFFF (by decide) (by decide),
   ((c3_rebootRegister sEx eepromEx 1 1 (by decide) (by decide)).2.2.2
      (by decide)).1⟩

-- ---------------------------------------------------------------------
-- C5
-- ---------------------------------------------------------------------

/-- C5 (counterexample): at time 200 the watchdog deadline (100 ms) has
elapsed and a reboot is pending.  The code's `poll` resets without ever
evaluating the watchdog (events `[reset]`), while the claimed order
"frame, then watchdog, then reboot sampling" would fire the lost
callback first (events `[lost, reset]`). -/
theorem c5_counterexample :
    (poll defaultCallbacks 200 FrameAction.idle sRebootPending eepromEx).events
      = [Event.reset]
    ∧ (pollClaimedOrder defaultCallbacks 200 FrameAction.idle sRebootPending
        eepromEx).events = [Event.lost, Event.reset]
    ∧ [Event.reset] ≠ [Event.lost, Event.reset] := by decide

/-- C5 (amended): within one `poll`, frame-engine processing runs first,
then the deferred-reboot sampling (terminal when taken, skipping the
watchdog), then the watchdog evaluation; consequently a reboot request
written during this poll's frame processing is executed within this
same poll, with exactly one reset and no watchdog callback. -/
theorem c5_pollOrder (app : AppCallbacks) (now : Nat) (s : KernelState)
    (e : Eeprom) :
    (∀ fa, (framePhase app now fa s e).state.rebootRequest = true →
      (poll app now fa s e).state = none
      ∧ (poll app now fa s e).events
        = (framePhase app now fa s e).events ++ [Event.reset])
    ∧ ((poll app now (FrameAction.writeHolding 0x103 1 [0xFFFF]) s e).state = none
      ∧ (poll app now (FrameAction.writeHolding 0x103 1 [0xFFFF]) s e).events
        = [Event.reset]) := by
  constructor
  · intro fa hfr
    unfold poll
    simp [hfr]
  · have hfr : (framePhase app now (FrameAction.writeHolding 0x103 1 [0xFFFF])
        s e).state.rebootRequest = true := by
      simp only [framePhase, writeHoldingRegs, configAddressOffset]
      norm_num
      rw [writeConfig_reboot_eq s e 0xFFFF (by norm_num)]
      simp
    have hev : (framePhase app now (FrameAction.writeHolding 0x103 1 [0xFFFF])
        s e).events = [] := by
      simp [framePhase]
    rw [poll_reboot app now _ s e hfr, hev]
    exact ⟨rfl, rfl⟩

/-- Witness for C5 (amended): instantiated on the example kernel at
time 200 with an idle frame whose state already requests a reboot, and
with the reboot write arriving in this poll. -/
theorem c5_pollOrder_witness :
    ((poll defaultCallbacks 200 FrameAction.idle sRebootPending eepromEx).state = none
      ∧ (poll defaultCallbacks 200 FrameAction.idle sRebootPending eepromEx).events
        = (framePhase defaultCallbacks 200 FrameAction.idle sRebootPending
            eepromEx).events ++ [Event.reset])
    ∧ ((poll defaultCallbacks 200 (FrameAction.writeHolding 0x103 1 [0xFFFF])
        sEx eepromEx).state = none
      ∧ (poll defaultCallbacks 200 (FrameAction.writeHolding 0x103 1 [0xFFFF])
        sEx eepromEx).events = [Event.reset]) :=
  ⟨(c5_pollOrder defaultCallbacks 200 sRebootPending eepromEx).1
      FrameAction.idle (by decide),
   (c5_pollOrder defaultCallbacks 200 sEx eepromEx).2⟩

-- ---------------------------------------------------------------------
-- C9
-- ---------------------------------------------------------------------

lemma checkTimeout_eq_true_iff (now : Nat) (x : Int) :
    checkTimeout now x = true ↔ 0 ≤ toInt16 (millis16 now - x) := by
  unfold checkTimeout
  split_ifs with h <;> simp [h]

/-- C9 (counterexample): the code masks the clock with 0xFFFF and casts
to int16, not with 0x7FFF.  At now = 0x8000 `setTimeout` stores −0x8000
where the claimed scheme stores 0; and for a deadline stored at
now0 = 0, t = 0, a check at now1 = 0x8000 returns false although the
claimed signed difference ((now1 & 0x7FFF) − d) = 0 is ≥ 0. -/
theorem c9_counterexample :
    setTimeout 0x8000 0 = -0x8000
    ∧ setTimeoutClaimed 0x8000 0 = 0
    ∧ setTimeout 0x8000 0 ≠ setTimeoutClaimed 0x8000 0
    ∧ checkTimeout 0x8000 (setTimeout 0 0) = false
    ∧ checkTimeoutClaimed 0x8000 (setTimeout 0 0) = true := by decide

/-- C9 (amended): `setTimeout` stores
`int16(int16(now0 & 0xFFFF) + t)`; for any interval `t ≤ 0x7FFF`,
`checkTimeout` on that deadline returns true iff the signed 16-bit
wrap of the elapsed-minus-interval difference `(now1 − now0 − t)` is
`≥ 0`, equivalently iff `(now1 − now0 − t) mod 2^16 < 0x8000`. -/
theorem c9_timerWrapped (now0 t now1 : Nat) (ht : t ≤ 0x7FFF) :
    (checkTimeout now1 (setTimeout now0 t) = true
      ↔ 0 ≤ toInt16 ((now1 : Int) - now0 - t))
    ∧ (0 ≤ toInt16 ((now1 : Int) - now0 - t)
      ↔ ((now1 : Int) - now0 - t) % 0x10000 < 0x8000) := by
  constructor
  · rw [checkTimeout_eq_true_iff]
    unfold setTimeout millis16 toInt16
    constructor <;> intro h <;> omega
  · unfold toInt16
    constructor <;> intro h <;> omega

/-- Witness for C9 (amended): deadline set at time 0 with t = 100,
checked at time 150. -/
theorem c9_timerWrapped_witness :
    (100 ≤ 0x7FFF)
    ∧ ((checkTimeout 150 (setTimeout 0 100) = true
        ↔ 0 ≤ toInt16 ((150 : Int) - 0 - 100))
      ∧ (0 ≤ toInt16 ((150 : Int) - 0 - 100)
        ↔ ((150 : Int) - 0 - 100) % 0x10000 < 0x8000)) :=
  ⟨by decide, c9_timerWrapped 0 100 150 (by decide)⟩

-- ---------------------------------------------------------------------
-- C4
-- ---------------------------------------------------------------------

lemma set_commLost_false_eq_self (s : KernelState)
    (h : s.communicationLost = false) :
    { s with communicationLost := false } = s := by
  cases s
  simp_all

/-- An idle poll with the alarm already latched changes nothing and
fires nothing. -/
lemma poll_idle_latched (now : Nat) (s : KernelState) (e : Eeprom)
    (hrb : s.rebootRequest = false) (hcl : s.communicationLost = true) :
    poll defaultCallbacks now FrameAction.idle s e
      = { state := some s, eeprom := e, events := [], status := none
          bufOut := [] } := by
  unfold poll framePhase
  simp [hrb, hcl]

/-- A run of idle polls with the alarm latched changes nothing and
fires nothing. -/
lemma runIdle_latched (ns : List Nat) (s : KernelState) (e : Eeprom)
    (hrb : s.rebootRequest = false) (hcl : s.communicationLost = true) :
    runIdle ns s e = (some s, []) := by
  induction ns with
  | nil => rfl
  | cons n rest ih =>
    unfold runIdle
    rw [poll_idle_latched n s e hrb hcl]
    simpa using ih

/-- An idle poll with the watchdog enabled and the alarm not latched:
the lost callback fires exactly when the deadline check succeeds, and
latches the alarm. -/
lemma poll_idle_unlatched (now : Nat) (s : KernelState) (e : Eeprom)
    (hrb : s.rebootRequest = false) (hcl : s.communicationLost = false)
    (hen : s.configRegs.getD holdingRegCommTimeout 0 ≠ 0) :
    poll defaultCallbacks now FrameAction.idle s e
      = if checkTimeout now s.communicationLostTimer then
          { state := some { s with communicationLost := true }, eeprom := e
            events := [Event.lost], status := none, bufOut := [] }
        else
          { state := some s, eeprom := e, events := [], status := none
            bufOut := [] } := by
  unfold poll framePhase
  simp only [hrb, hcl]
  norm_num
  split_ifs <;> simp_all

/-- A run of idle polls starting unlatched: the alarm ends latched iff
some poll time passed the deadline check, and the whole run emits the
lost event exactly once in that case (and nothing otherwise). -/
lemma runIdle_unlatched (s : KernelState) (e : Eeprom)
    (hrb : s.rebootRequest = false) (hcl : s.communicationLost = false)
    (hen : s.configRegs.getD holdingRegCommTimeout 0 ≠ 0) :
    ∀ ns : List Nat,
      runIdle ns s e
        = (some
            { s with
              communicationLost :=
                ns.any (fun n => checkTimeout n s.communicationLostTimer) },
           if ns.any (fun n => checkTimeout n s.communicationLostTimer)
           then [Event.lost] else []) := by
  intro ns
  induction ns with
  | nil =>
    rw [show runIdle [] s e = (some s, []) from rfl]
    simp [set_commLost_false_eq_self s hcl]
  | cons n rest ih =>
    unfold runIdle
    rw [poll_idle_unlatched n s e hrb hcl hen]
    by_cases h : checkTimeout n s.communicationLostTimer = true
    · rw [if_pos h]
      simp only []
      rw [runIdle_latched rest _ e (by simpa using hrb) (by simp)]
      simp [List.any_cons, h]
    · rw [if_neg (by simpa using h)]
      simp only []
      rw [ih]
      have hb : checkTimeout n s.communicationLostTimer = false := by
        simpa using h
      simp [List.any_cons, hb]

lemma listAny_congr (ns : List Nat) (f g : Nat → Bool)
    (h : ∀ n ∈ ns, f n = g n) : ns.any f = ns.any g := by
  induction ns with
  | nil => rfl
  | cons a l ih =>
    simp only [List.any_cons, h a (by simp)]
    rw [ih (fun n hn => h n (by simp [hn]))]

/-- Within the rollover-safe window, the watchdog deadline check is
exactly "real time reached construction time plus the timeout". -/
lemma checkTimeout_construct_iff (now0 T n : Nat) (hT : 0 < T)
    (hTmax : T ≤ 0x7FFF) (h1 : now0 ≤ n) (h2 : n ≤ now0 + T + 0x7FFF) :
    checkTimeout n (setTimeout now0 T) = true ↔ now0 + T ≤ n := by
  rw [checkTimeout_eq_true_iff]
  unfold setTimeout millis16 toInt16
  push_cast
  omega

/-- Re-arming a deadline of 0 < T ≤ 0x7FFF at the current instant makes
the check false. -/
lemma checkTimeout_rearm (now T : Nat) (h1 : 0 < T) (h2 : T ≤ 0x7FFF) :
    checkTimeout now (setTimeout now T) = false := by
  unfold checkTimeout setTimeout millis16 toInt16
  rw [if_neg]
  push_cast
  omega

/-- A poll whose frame is a one-register read of 0x102: the mirror
timeout value is emitted, the watchdog deadline is re-armed to
now + T, the reestablished callback fires exactly when the alarm was
latched, the alarm is cleared, and the freshly re-armed watchdog does
not refire in the same poll. -/
lemma poll_read102 (now : Nat) (s : KernelState) (e : Eeprom) (T : Nat)
    (hrb : s.rebootRequest = false)
    (hreg : s.configRegs.getD holdingRegCommTimeout 0 = T)
    (hT : 0 < T) (hTmax : T ≤ 0x7FFF) :
    poll defaultCallbacks now (FrameAction.readHolding 0x102 1) s e
      = { state := some { s with communicationLost := false
                                 communicationLostTimer := setTimeout now T }
          eeprom := e
          events := if s.communicationLost then [Event.reestablished] else []
          status := some STATUS_OK
          bufOut := [(0, T)] } := by
  have hreg2 : s.configRegs[(2 : Nat)]?.getD 0 = T := by
    simpa [holdingRegCommTimeout] using hreg
  unfold poll framePhase readHoldingRegs readConfigRegs
  norm_num [readConfigLoop, u16sub, configAddressOffset, numConfigRegs,
    holdingRegCommTimeout, hreg2, hrb, checkTimeout_rearm now T hT hTmax,
    Nat.pos_iff_ne_zero.mp hT]

/-- C4: with the watchdog enabled at construction (persisted
comm_timeout T with 0 < T ≤ 0x7FFF, the bound documented for the timer
primitive) and only idle polls at times inside the rollover-safe window,
the lost callback fires exactly once — iff some poll time has reached
the deadline now0 + T — and no later idle poll refires it; the alarm
stays latched until a poll carrying a read of register 0x102, which
fires the reestablished callback exactly once if and only if the alarm
was pending, clears the alarm and re-arms the deadline to its time plus
T. -/
theorem c4_watchdogOnce (e : Eeprom) (now0 T : Nat) (ns : List Nat) (nr : Nat)
    (hT : 0 < T) (hTmax : T ≤ 0x7FFF) (hcfg : e.header.commTimeout = T)
    (hns : ∀ n ∈ ns, now0 ≤ n ∧ n ≤ now0 + T + 0x7FFF) :
    ((runIdle ns (construct e now0) e).2.count Event.lost
        = if ns.any (fun n => now0 + T ≤ n) then 1 else 0)
    ∧ ((runIdle ns (construct e now0) e).2.count Event.reestablished = 0)
    ∧ ((runIdle ns (construct e now0) e).1
        = some
            { construct e now0 with
              communicationLost := ns.any (fun n => now0 + T ≤ n) })
    ∧ (∀ s1, (runIdle ns (construct e now0) e).1 = some s1 →
        (poll defaultCallbacks nr (FrameAction.readHolding 0x102 1) s1 e).events
          = (if s1.communicationLost then [Event.reestablished] else [])
        ∧ (poll defaultCallbacks nr (FrameAction.readHolding 0x102 1) s1 e).state
          = some
              { s1 with
                communicationLost := false
                communicationLostTimer := setTimeout nr T }) := by
  have hrb : (construct e now0).rebootRequest = false := rfl
  have hcl : (construct e now0).communicationLost = false := rfl
  have hreg : (construct e now0).configRegs.getD holdingRegCommTimeout 0 = T := by
    simp only [construct]
    split_ifs <;> simp [holdingRegCommTimeout, hcfg]
  have htimer : (construct e now0).communicationLostTimer = setTimeout now0 T := by
    simp only [construct]
    split_ifs <;> simp_all [hcfg] <;> omega
  have hen : (construct e now0).configRegs.getD holdingRegCommTimeout 0 ≠ 0 := by
    rw [hreg]; omega
  have hrun := runIdle_unlatched (construct e now0) e hrb hcl hen ns
  have hany : ns.any (fun n => checkTimeout n (construct e now0).communicationLostTimer)
      = ns.any (fun n => decide (now0 + T ≤ n)) := by
    apply listAny_congr
    intro n hn
    rw [htimer]
    have hiff := checkTimeout_construct_iff now0 T n hT hTmax (hns n hn).1 (hns n hn).2
    rw [Bool.eq_iff_iff, hiff, decide_eq_true_iff]
  rw [hrun, hany]
  refine ⟨?_, ?_, rfl, ?_⟩
  · split_ifs <;> simp
  · split_ifs <;> simp
  · intro s1 hs1
    rw [Option.some_inj] at hs1
    subst hs1
    rw [poll_read102 nr
      { construct e now0 with
        communicationLost := ns.any fun n => decide (now0 + T ≤ n) }
      e T hrb hreg hT hTmax]
    exact ⟨rfl, rfl⟩

/-- Witness for C4: 100 ms watchdog armed at time 0; idle polls at
50, 150, 170 ms; a read of 0x102 at 300 ms. -/
theorem c4_watchdogOnce_witness :
    ((runIdle [50, 150, 170] (construct eepromEx 0) eepromEx).2.count Event.lost
        = if [50, 150, 170].any (fun n => 0 + 100 ≤ n) then 1 else 0)
    ∧ ((runIdle [50, 150, 170] (construct eepromEx 0) eepromEx).2.count
        Event.reestablished = 0)
    ∧ ((runIdle [50, 150, 170] (construct eepromEx 0) eepromEx).1
        = some
            { construct eepromEx 0 with
              communicationLost := [50, 150, 170].any (fun n => 0 + 100 ≤ n) })
    ∧ (∀ s1, (runIdle [50, 150, 170] (construct eepromEx 0) eepromEx).1 = some s1 →
        (poll defaultCallbacks 300 (FrameAction.readHolding 0x102 1) s1
          eepromEx).events
          = (if s1.communicationLost then [Event.reestablished] else [])
        ∧ (poll defaultCallbacks 300 (FrameAction.readHolding 0x102 1) s1
            eepromEx).state
          = some
              { s1 with
                communicationLost := false
                communicationLostTimer := setTimeout 300 100 }) :=
  c4_watchdogOnce eepromEx 0 100 [50, 150, 170] 300 (by decide) (by decide)
    (by decide) (by decide)

-- ---------------------------------------------------------------------
-- C10
-- ---------------------------------------------------------------------

/-- The write loop never touches the persisted magic field. -/
lemma writeConfigLoop_magic (a : Nat) (bufIn : List Nat) :
    ∀ (c i : Nat) (s : KernelState),
      (writeConfigLoop a bufIn s i c).config.magic = s.config.magic := by
  intro c
  induction c with
  | zero => intro i s; rfl
  | succ c ih =>
    intro i s
    simp only [writeConfigLoop]
    split_ifs <;> simp [ih (i + 1)]

/-- A holding-register write keeps the in-RAM magic unchanged, and
either persists a header carrying exactly that magic or leaves the
store untouched. -/
lemma writeHoldingRegs_magic (app : AppCallbacks) (s : KernelState)
    (e : Eeprom) (a l : Nat) (b : List Nat) :
    (writeHoldingRegs app s e a l b).state.config.magic = s.config.magic
    ∧ ((writeHoldingRegs app s e a l b).eeprom.header.magic = s.config.magic
       ∨ (writeHoldingRegs app s e a l b).eeprom = e) := by
  unfold writeHoldingRegs writeConfigRegs
  dsimp only
  split_ifs <;> simp [writeConfigLoop_magic]

/-- The magic invariant propagates through any sequence of
holding-register writes. -/
lemma applyWrites_magic (app : AppCallbacks) (ws : List WReq) :
    ∀ (s : KernelState) (e : Eeprom),
      (applyWrites app ws (s, e)).1.config.magic = s.config.magic
      ∧ ((applyWrites app ws (s, e)).2.header.magic = s.config.magic
         ∨ (applyWrites app ws (s, e)).2 = e) := by
  induction ws with
  | nil => intro s e; exact ⟨rfl, Or.inr rfl⟩
  | cons w rest ih =>
    intro s e
    unfold applyWrites
    obtain ⟨h1, h2⟩ := writeHoldingRegs_magic app s e w.address w.length w.bufIn
    obtain ⟨ih1, ih2⟩ :=
      ih (writeHoldingRegs app s e w.address w.length w.bufIn).state
        (writeHoldingRegs app s e w.address w.length w.bufIn).eeprom
    refine ⟨by rw [ih1, h1], ?_⟩
    rcases ih2 with h | h
    · exact Or.inl (by rw [h, h1])
    · rw [h]
      rcases h2 with h2 | h2
      · exact Or.inl h2
      · exact Or.inr h2

/-- C10: when construction finds a magic different from the sentinel
(so the in-RAM magic is zeroed) and `eepromWriteDefaults` is never
called, any sequence of holding-register writes leaves the in-RAM magic
at 0; the store either carries a persisted header with magic 0 or is
untouched — in both cases its magic still differs from the sentinel —
so after a reload `eepromDefaultsRequired` is still true; and every
individual accepted configuration-window write persists a header whose
magic field is 0. -/
theorem c10_invalidMagicPersists (e0 : Eeprom) (now nowR : Nat)
    (ws : List WReq) (hmagic : e0.header.magic ≠ eepromMagic) :
    ((applyWrites defaultCallbacks ws (construct e0 now, e0)).1.config.magic = 0)
    ∧ ((applyWrites defaultCallbacks ws (construct e0 now, e0)).2.header.magic = 0
       ∨ (applyWrites defaultCallbacks ws (construct e0 now, e0)).2 = e0)
    ∧ ((applyWrites defaultCallbacks ws
          (construct e0 now, e0)).2.header.magic ≠ eepromMagic)
    ∧ (eepromDefaultsRequired
        (construct (applyWrites defaultCallbacks ws (construct e0 now, e0)).2
          nowR) = true)
    ∧ (∀ (s : KernelState) (e : Eeprom) (a l : Nat) (b : List Nat),
        s.config.magic = 0 →
        (writeConfigRegs s e a l b).status = STATUS_OK →
        (writeConfigRegs s e a l b).eeprom.header.magic = 0) := by
  have hc : (construct e0 now).config.magic = 0 := by
    simp [construct, hmagic]
  obtain ⟨h1, h2⟩ := applyWrites_magic defaultCallbacks ws (construct e0 now) e0
  rw [hc] at h1 h2
  have h3 : (applyWrites defaultCallbacks ws
      (construct e0 now, e0)).2.header.magic ≠ eepromMagic := by
    rcases h2 with h | h
    · rw [h]; decide
    · rw [h]; exact hmagic
  have hreq : ∀ (E : Eeprom), E.header.magic ≠ eepromMagic →
      eepromDefaultsRequired (construct E nowR) = true := by
    intro E hE
    simp [construct, eepromDefaultsRequired, hE]
  refine ⟨h1, h2, h3, hreq _ h3, ?_⟩
  intro s e a l b hm hok
  unfold writeConfigRegs at hok ⊢
  dsimp only at hok ⊢
  split_ifs at hok ⊢ with hg
  · simp [STATUS_ILLEGAL_DATA_ADDRESS, STATUS_OK] at hok
  · simp [writeConfigLoop_magic, hm]

/-- Witness for C10: construction from a store with magic 0xDEAD, a
slave-id write and a reboot-request write, then a reload. -/
theorem c10_invalidMagicPersists_witness :
    ((applyWrites defaultCallbacks [⟨0x100, 1, [9]⟩, ⟨0x103, 1, [0xFFFF]⟩]
        (construct { header := { slaveID := 42, baudRate := 19200,
                                 commTimeout := 7, magic := 0xDEAD }
                     appData := [1, 2, 3, 4] } 0,
         { header := { slaveID := 42, baudRate := 19200,
                       commTimeout := 7, magic := 0xDEAD }
           appData := [1, 2, 3, 4] })).1.config.magic = 0)
    ∧ ((applyWrites defaultCallbacks [⟨0x100, 1, [9]⟩, ⟨0x103, 1, [0xFFFF]⟩]
        (construct { header := { slaveID := 42, baudRate := 19200,
                                 commTimeout := 7, magic := 0xDEAD }
                     appData := [1, 2, 3, 4] } 0,
         { header := { slaveID := 42, baudRate := 19200,
                       commTimeout := 7, magic := 0xDEAD }
           appData := [1, 2, 3, 4] })).2.header.magic = 0
       ∨ (applyWrites defaultCallbacks [⟨0x100, 1, [9]⟩, ⟨0x103, 1, [0xFFFF]⟩]
        (construct { header := { slaveID := 42, baudRate := 19200,
                                 commTimeout := 7, magic := 0xDEAD }
                     appData := [1, 2, 3, 4] } 0,
         { header := { slaveID := 42, baudRate := 19200,
                       commTimeout := 7, magic := 0xDEAD }
           appData := [1, 2, 3, 4] })).2
         = { header := { slaveID := 42, baudRate := 19200,
                         commTimeout := 7, magic := 0xDEAD }
             appData := [1, 2, 3, 4] })
    ∧ ((applyWrites defaultCallbacks [⟨0x100, 1, [9]⟩, ⟨0x103, 1, [0xFFFF]⟩]
        (construct { header := { slaveID := 42, baudRate := 19200,
                                 commTimeout := 7, magic := 0xDEAD }
                     appData := [1, 2, 3, 4] } 0,
         { header := { slaveID := 42, baudRate := 19200,
                       commTimeout := 7, magic := 0xDEAD }
           appData := [1, 2, 3, 4] })).2.header.magic ≠ eepromMagic)
    ∧ (eepromDefaultsRequired
        (construct (applyWrites defaultCallbacks
            [⟨0x100, 1, [9]⟩, ⟨0x103, 1, [0xFFFF]⟩]
            (construct { header := { slaveID := 42, baudRate := 19200,
                                     commTimeout := 7, magic := 0xDEAD }
                         appData := [1, 2, 3, 4] } 0,
             { header := { slaveID := 42, baudRate := 19200,
                           commTimeout := 7, magic := 0xDEAD }
               appData := [1, 2, 3, 4] })).2 5) = true)
    ∧ (∀ (s : KernelState) (e : Eeprom) (a l : Nat) (b : List Nat),
        s.config.magic = 0 →
        (writeConfigRegs s e a l b).status = STATUS_OK →
        (writeConfigRegs s e a l b).eeprom.header.magic = 0) :=
  c10_invalidMagicPersists
    { header := { slaveID := 42, baudRate := 19200, commTimeout := 7,
                  magic := 0xDEAD }
      appData := [1, 2, 3, 4] }
    0 5 [⟨0x100, 1, [9]⟩, ⟨0x103, 1, [0xFFFF]⟩] (by decide)
